import Mathlib

/-
Verification of the board/state engine of the socha penguins client
(src/socha/api/plugin/penguins.py) against its natural-language specification.

The Python classes are embedded shallowly:
- Python ints are Nat (bit masks, indices) or Int (coordinates);
- methods that can raise are embedded as `Except PyErr _`, with one error
  constructor per kind of Python exception the code can actually raise;
- in-place mutation (Board.update, Board.set_field inside Board.move,
  Fishes.add_fish) is embedded as explicit state passing: the function
  returns the updated value, and GameState.perform_move additionally returns
  the post-call state of the receiver so that frame effects are visible.
-/

set_option autoImplicit false

namespace Penguins

/-- The kinds of exception the embedded Python code can raise:
`typeError` (operation on None or a call with a missing required argument),
`indexError` (CartesianCoordinate.from_index out of range),
`attributeError` (attribute access on None),
`invalidMove` (the Exception raised by GameState.perform_move),
`badFish` (the Exception raised by Board.set_field for a fish value outside 0..4). -/
inductive PyErr where
  | typeError
  | indexError
  | attributeError
  | invalidMove
  | badFish
deriving DecidableEq, Repr

/-- Vector in the doubled hex grid (class Vector, fields d_x, d_y). -/
structure Vector where
  d_x : Int
  d_y : Int
deriving DecidableEq, Repr

/-- Vector.directions: the six hex neighbor offsets, in source order. -/
def Vector.directions : List Vector :=
  [⟨1, -1⟩, ⟨-2, 0⟩, ⟨1, 1⟩, ⟨-1, 1⟩, ⟨2, 0⟩, ⟨-1, -1⟩]

/-- Cartesian grid coordinate (class CartesianCoordinate). -/
structure CartesianCoordinate where
  x : Int
  y : Int
deriving DecidableEq, Repr

/-- Hex coordinate in the doubled-column scheme (class HexCoordinate). -/
structure HexCoordinate where
  x : Int
  y : Int
deriving DecidableEq, Repr

/-- CartesianCoordinate.to_hex: `HexCoordinate(x*2 + (1 if y % 2 == 1 else 0), y)`.
Python `%` on ints agrees with Int.emod for the positive modulus 2. -/
def CartesianCoordinate.to_hex (c : CartesianCoordinate) : HexCoordinate :=
  ⟨c.x * 2 + (if c.y % 2 = 1 then 1 else 0), c.y⟩

/-- CartesianCoordinate.to_index: `y * 8 + x` when `0 <= x <= 7 and 0 <= y <= 7`,
None otherwise. The value is non-negative under the guard, so it is returned as a Nat. -/
def CartesianCoordinate.to_index (c : CartesianCoordinate) : Option Nat :=
  if 0 ≤ c.x ∧ c.x ≤ 7 ∧ 0 ≤ c.y ∧ c.y ≤ 7 then some (c.y * 8 + c.x).toNat else none

/-- CartesianCoordinate.from_index at a call site with `index <= 63`, where the
IndexError branch is unreachable: `CartesianCoordinate(x=index % 8, y=int(index / 8))`.
For `index <= 63` the float division `index / 8` is exact enough that
`int(index / 8)` equals floor division. -/
def CartesianCoordinate.from_index_valid (index : Nat) : CartesianCoordinate :=
  ⟨(index % 8 : Nat), (index / 8 : Nat)⟩

/-- CartesianCoordinate.from_index: raises IndexError unless `0 <= index <= 63`. -/
def CartesianCoordinate.from_index (index : Nat) : Except PyErr CartesianCoordinate :=
  if index ≤ 63 then .ok (CartesianCoordinate.from_index_valid index) else .error .indexError

/-- HexCoordinate.to_cartesian:
`CartesianCoordinate(math.floor((x / 2 - (1 if y % 2 == 1 else 0)) + 0.5), y)`.
All intermediate floats here are exact (small multiples of 0.5), and
`floor(x/2 + 0.5 - b) = fdiv (x+1) 2 - b` for the integer `b`. -/
def HexCoordinate.to_cartesian (h : HexCoordinate) : CartesianCoordinate :=
  ⟨(h.x + 1).fdiv 2 - (if h.y % 2 = 1 then 1 else 0), h.y⟩

/-- HexCoordinate.add_vector. -/
def HexCoordinate.add_vector (h : HexCoordinate) (v : Vector) : HexCoordinate :=
  ⟨h.x + v.d_x, h.y + v.d_y⟩

/-- class TeamEnum. -/
inductive TeamEnum where
  | ONE
  | TWO
deriving DecidableEq, Repr

/-- Team.opponent, reduced to the team identifier: the source returns a fresh
Team with the other name, an empty penguin list and a zero tally; everywhere the
embedded code consumes a Team it only reads its `name`. -/
def TeamEnum.opponent : TeamEnum → TeamEnum
  | .ONE => .TWO
  | .TWO => .ONE

/-- class Move: optional origin, destination, acting team. -/
structure Move where
  from_value : Option HexCoordinate
  to_value : HexCoordinate
  team : TeamEnum
deriving DecidableEq, Repr

/-- class Penguin. -/
structure Penguin where
  position : HexCoordinate
  team : TeamEnum
deriving DecidableEq, Repr

/-- class Field. -/
structure Field where
  coordinate : HexCoordinate
  penguin : Option Penguin
  fish : Nat
deriving DecidableEq, Repr

/-- Sequencing of a fallible computation over a list, in source order with the
first raised exception propagated — the semantics of a Python list comprehension
whose body may raise. -/
def mapExcept {α β : Type} (f : α → Except PyErr β) : List α → Except PyErr (List β)
  | [] => .ok []
  | a :: as =>
    match f a with
    | .error e => .error e
    | .ok b =>
      match mapExcept f as with
      | .error e => .error e
      | .ok bs => .ok (b :: bs)

/-- class Board: seven bit masks over (at least) 64 cells.
Python ints are unbounded and all masks built by the code are non-negative,
so each mask is a Nat. -/
structure Board where
  one : Nat
  two : Nat
  fish_0 : Nat
  fish_1 : Nat
  fish_2 : Nat
  fish_3 : Nat
  fish_4 : Nat
deriving DecidableEq, Repr

/-- Board.get_fish: first fish mask (in order fish_0 .. fish_4) holding the bit,
defaulting to 0 when none does. -/
def Board.get_fish (b : Board) (index : Nat) : Nat :=
  if b.fish_0 &&& (1 <<< index) ≠ 0 then 0
  else if b.fish_1 &&& (1 <<< index) ≠ 0 then 1
  else if b.fish_2 &&& (1 <<< index) ≠ 0 then 2
  else if b.fish_3 &&& (1 <<< index) ≠ 0 then 3
  else if b.fish_4 &&& (1 <<< index) ≠ 0 then 4
  else 0

/-- Board.get_penguin: decodes the occupant of the cell at a hex coordinate.
Python computes `1 << index` where `index` is None for an off-board coordinate,
a TypeError. -/
def Board.get_penguin (b : Board) (coordinate : HexCoordinate) :
    Except PyErr (Option Penguin) :=
  match coordinate.to_cartesian.to_index with
  | none => .error .typeError
  | some index =>
    .ok (if b.one &&& (1 <<< index) ≠ 0 then some ⟨coordinate, .ONE⟩
         else if b.two &&& (1 <<< index) ≠ 0 then some ⟨coordinate, .TWO⟩
         else none)

/-- Board.get_field: decode occupancy and fish count at an index. The inner
`get_fish(coordinate.to_cartesian().to_index())` call would be a TypeError if the
round-tripped index were None. -/
def Board.get_field (b : Board) (index : Nat) : Except PyErr Field :=
  match CartesianCoordinate.from_index index with
  | .error e => .error e
  | .ok c =>
    let coordinate := c.to_hex
    match b.get_penguin coordinate with
    | .error e => .error e
    | .ok penguin =>
      match coordinate.to_cartesian.to_index with
      | none => .error .typeError
      | some i => .ok ⟨coordinate, penguin, b.get_fish i⟩

/-- Board.is_occupied. -/
def Board.is_occupied (b : Board) (index : Nat) : Bool :=
  decide (b.one &&& (1 <<< index) ≠ 0) || decide (b.two &&& (1 <<< index) ≠ 0)

/-- Board.is_valid: only an upper bound is checked in the source. -/
def Board.is_valid (index : Nat) : Bool :=
  decide (index < 64)

/-- Board.is_team. -/
def Board.is_team (b : Board) (team : TeamEnum) (index : Nat) : Bool :=
  match team with
  | .ONE => decide (b.one &&& (1 <<< index) ≠ 0)
  | .TWO => decide (b.two &&& (1 <<< index) ≠ 0)

/-- Board.get_teams_penguins: scan of indices 0..63; `from_index` cannot raise
on this range, so `from_index_valid` is used. Per index at most one of the two
`if` statements of the source can fire because `team` is fixed. -/
def Board.get_teams_penguins (b : Board) (team : TeamEnum) : List Penguin :=
  (List.range 64).filterMap (fun index =>
    if team = TeamEnum.ONE ∧ (b.one >>> index) &&& 1 ≠ 0 then
      some ⟨(CartesianCoordinate.from_index_valid index).to_hex, TeamEnum.ONE⟩
    else if team = TeamEnum.TWO ∧ (b.two >>> index) &&& 1 ≠ 0 then
      some ⟨(CartesianCoordinate.from_index_valid index).to_hex, TeamEnum.TWO⟩
    else none)

/-- Board.set_field: sets the bit of the matching mask; a fish count above 4 on a
penguin-free field raises (`badFish`). An off-board coordinate would reach
`1 << None`, a TypeError. -/
def Board.set_field (b : Board) (field : Field) : Except PyErr Board :=
  match field.penguin with
  | some penguin =>
    match penguin.position.to_cartesian.to_index with
    | none => .error .typeError
    | some index =>
      match penguin.team with
      | .ONE => .ok { b with one := b.one ||| (1 <<< index) }
      | .TWO => .ok { b with two := b.two ||| (1 <<< index) }
  | none =>
    let fish := field.fish
    match field.coordinate.to_cartesian.to_index with
    | none => .error .typeError
    | some index =>
      if fish = 0 then .ok { b with fish_0 := b.fish_0 ||| (1 <<< index) }
      else if fish = 1 then .ok { b with fish_1 := b.fish_1 ||| (1 <<< index) }
      else if fish = 2 then .ok { b with fish_2 := b.fish_2 ||| (1 <<< index) }
      else if fish = 3 then .ok { b with fish_3 := b.fish_3 ||| (1 <<< index) }
      else if fish = 4 then .ok { b with fish_4 := b.fish_4 ||| (1 <<< index) }
      else .error .badFish

/-- Board.update: in-place XOR of the origin bit and OR of the destination bit on
the acting team's mask (slide), or OR of the destination bit alone (placement);
embedded as returning the updated board. `1 << None` for an off-board coordinate
is a TypeError; both indices are computed before any mask is touched. -/
def Board.update (b : Board) (move : Move) : Except PyErr Board :=
  match move.from_value with
  | some fv =>
    match fv.to_cartesian.to_index, move.to_value.to_cartesian.to_index with
    | some from_coord, some to_coord =>
      match move.team with
      | .ONE => .ok { b with one := (b.one ^^^ (1 <<< from_coord)) ||| (1 <<< to_coord) }
      | .TWO => .ok { b with two := (b.two ^^^ (1 <<< from_coord)) ||| (1 <<< to_coord) }
    | _, _ => .error .typeError
  | none =>
    match move.to_value.to_cartesian.to_index with
    | some to_coord =>
      match move.team with
      | .ONE => .ok { b with one := b.one ||| (1 <<< to_coord) }
      | .TWO => .ok { b with two := b.two ||| (1 <<< to_coord) }
    | none => .error .typeError

/-- Board.move: `new_board = self` aliases the receiver; the two `set_field`
calls re-encode the fields read (before any mutation) at origin and destination.
A placement move reaches `None.to_cartesian()`, an AttributeError; an off-board
origin or destination reaches `from_index(None)`, a TypeError, inside `get_field`
before any `set_field` runs. The returned board is also the post-call state of
the receiver. -/
def Board.move (b : Board) (move : Move) : Except PyErr Board :=
  match move.from_value with
  | none => .error .attributeError
  | some origin =>
    let destination := move.to_value
    match origin.to_cartesian.to_index with
    | none => .error .typeError
    | some origin_index =>
      match destination.to_cartesian.to_index with
      | none => .error .typeError
      | some destination_index =>
        match b.get_field origin_index with
        | .error e => .error e
        | .ok origin_field =>
          match b.get_field destination_index with
          | .error e => .error e
          | .ok destination_field =>
            match b.set_field origin_field with
            | .error e => .error e
            | .ok b1 => b1.set_field destination_field

/-- Body of the while loop of Board.get_directive_moves, with the current
`new_index` (None once the ray has left the board) and a fuel bound. The Python
loop is unbounded, but along each of the six hex direction vectors every step
changes the cartesian row by one or the cartesian column by one monotonically,
so the walk leaves the 8x8 board after at most 8 steps and 64 fuel is never
exhausted for the inputs the claims range over. -/
def Board.directive_loop (b : Board) (origin : HexCoordinate) (direction : Vector)
    (team : TeamEnum) : Nat → Option Nat → Except PyErr (List Move)
  | _, none => .ok []
  | 0, some _ => .ok []
  | fuel + 1, some new_index =>
    if Board.is_valid new_index && !b.is_occupied new_index
        && decide (0 < b.get_fish new_index) then
      match CartesianCoordinate.from_index new_index with
      | .error e => .error e
      | .ok c =>
        let mv : Move := ⟨some origin, c.to_hex, team⟩
        match CartesianCoordinate.from_index new_index with
        | .error e => .error e
        | .ok c2 =>
          match Board.directive_loop b origin direction team fuel
              ((c2.to_hex.add_vector direction).to_cartesian.to_index) with
          | .error e => .error e
          | .ok rest => .ok (mv :: rest)
    else .ok []

/-- Board.get_directive_moves: requires a penguin of `team` at `index`; walks the
ray while the next cell is on-board, unoccupied and fish-bearing, emitting one
Move per step. -/
def Board.get_directive_moves (b : Board) (index : Nat) (direction : Vector)
    (team : TeamEnum) : Except PyErr (List Move) :=
  match CartesianCoordinate.from_index index with
  | .error e => .error e
  | .ok c0 =>
    let origin := c0.to_hex
    if b.is_team team index then
      match CartesianCoordinate.from_index index with
      | .error e => .error e
      | .ok c1 =>
        Board.directive_loop b origin direction team 64
          ((c1.to_hex.add_vector direction).to_cartesian.to_index)
    else .ok []

/-- Board.possible_moves_from: concatenation of get_directive_moves over the six
directions, in source order. -/
def Board.possible_moves_from (b : Board) (index : Nat) (team : TeamEnum) :
    Except PyErr (List Move) :=
  match mapExcept (fun d => b.get_directive_moves index d team) Vector.directions with
  | .error e => .error e
  | .ok ls => .ok ls.flatten

/-- Board.get_most_fish: `max_fish` is the maximum of the five mask INTEGERS
(`max(self.fish_0, ..., self.fish_4)`), not of the per-cell fish counts; a field
at index i is collected when its mask bit is set and that whole mask equals
`max_fish`. -/
def Board.get_most_fish (b : Board) : Except PyErr (List Field) :=
  let max_fish := max (max (max (max b.fish_0 b.fish_1) b.fish_2) b.fish_3) b.fish_4
  match mapExcept (fun i =>
    match CartesianCoordinate.from_index i with
    | .error e => .error e
    | .ok c =>
      let coordinate := c.to_hex
      match coordinate.to_cartesian.to_index with
      | none => .error .typeError
      | some k =>
        let field : Field := ⟨coordinate, none, b.get_fish k⟩
        .ok (if b.fish_0 &&& (1 <<< i) ≠ 0 ∧ b.fish_0 = max_fish then [field]
          else if b.fish_1 &&& (1 <<< i) ≠ 0 ∧ b.fish_1 = max_fish then [field]
          else if b.fish_2 &&& (1 <<< i) ≠ 0 ∧ b.fish_2 = max_fish then [field]
          else if b.fish_3 &&& (1 <<< i) ≠ 0 ∧ b.fish_3 = max_fish then [field]
          else if b.fish_4 &&& (1 <<< i) ≠ 0 ∧ b.fish_4 = max_fish then [field]
          else [])) (List.range 64) with
  | .error e => .error e
  | .ok ls => .ok ls.flatten

/-- class Fishes: the fish tally pair. -/
structure Fishes where
  fishes_one : Nat
  fishes_two : Nat
deriving DecidableEq, Repr

/-- Fishes.add_fish: the source mutates the receiver in place and returns it
(`self.fishes_one += fish; return self`); embedded as returning the updated
value — the caller's Fishes object and the returned one are the same object. -/
def Fishes.add_fish (f : Fishes) (team : TeamEnum) (fish : Nat) : Fishes :=
  match team with
  | .ONE => ⟨f.fishes_one + fish, f.fishes_two⟩
  | .TWO => ⟨f.fishes_one, f.fishes_two + fish⟩

/-- class GameState, as its stored fields; the attributes derived in
`__init__` (round, current_team, possible_moves, ...) are recomputed on demand
by the functions below, and their possible exceptions during construction are
modelled by `GameState.init_check`. -/
structure GameState where
  board : Board
  turn : Nat
  start_team : TeamEnum
  fishes : Fishes
  last_move : Option Move
deriving DecidableEq, Repr

/-- GameState._get_possible_moves for a given board and acting team. The field
list is built first (x outer, y inner, as in the source comprehension). With
fewer than 4 penguins the placement moves onto penguin-free one-fish fields are
returned; otherwise the source evaluates `self.board.possible_moves_from(penguin)`,
a call that omits the required `team` parameter of
`Board.possible_moves_from(self, index, team)` and therefore raises TypeError
before producing any move. -/
def GameState.get_possible_moves (board : Board) (current_team : TeamEnum) :
    Except PyErr (List Move) :=
  match mapExcept (fun p =>
      match (CartesianCoordinate.mk p.1 p.2).to_index with
      | none => .error .typeError
      | some i => board.get_field i)
    ((List.range 8).flatMap (fun x => (List.range 8).map (fun y => ((x : Int), (y : Int))))) with
  | .error e => .error e
  | .ok fields =>
    if (board.get_teams_penguins current_team).length < 4 then
      .ok ((fields.filter (fun f => f.penguin = none ∧ f.fish = 1)).map
        (fun f => Move.mk none f.coordinate current_team))
    else
      .error .typeError

/-- GameState.current_team_from_turn: the nominal team alternates from
start_team with the parity of the turn; if the nominal team's move list is empty
the opponent is returned. Computing that move list raises TypeError whenever the
nominal team has 4 or more penguins (see GameState.get_possible_moves). -/
def GameState.current_team_from_turn (s : GameState) : Except PyErr TeamEnum :=
  let current_team_by_turn := if s.turn % 2 = 0 then s.start_team else s.start_team.opponent
  match GameState.get_possible_moves s.board current_team_by_turn with
  | .error e => .error e
  | .ok moves => .ok (if moves.isEmpty then current_team_by_turn.opponent else current_team_by_turn)

/-- self.possible_moves as computed in `__init__`:
`self._get_possible_moves(self.current_team)`. -/
def GameState.possible_moves (s : GameState) : Except PyErr (List Move) :=
  match s.current_team_from_turn with
  | .error e => .error e
  | .ok ct => GameState.get_possible_moves s.board ct

/-- The derived-attribute computations run by `GameState.__init__`
(current_team, other_team, current_pieces, possible_moves); any exception they
raise is raised by the constructor itself. -/
def GameState.init_check (s : GameState) : Except PyErr GameState :=
  match s.current_team_from_turn with
  | .error e => .error e
  | .ok ct =>
    match GameState.get_possible_moves s.board ct with
    | .error e => .error e
    | .ok _ => .ok s

/-- A Move object: its attribute values together with its object address. Move
defines no `__eq__`, so `==` on Moves is default object identity; two live
objects with distinct addresses compare unequal even when their attribute
values coincide. -/
structure MoveObj where
  val : Move
  addr : Nat
deriving DecidableEq, Repr

/-- Default Python equality on Move objects (identity). -/
def MoveObj.py_eq (a b : MoveObj) : Bool :=
  a.addr == b.addr

/-- self.possible_moves as a list of objects: each Move produced by
`_get_possible_moves` is a fresh allocation; addresses are assigned by list
position. -/
def GameState.possible_move_objs (s : GameState) : Except PyErr (List MoveObj) :=
  match s.possible_moves with
  | .error e => .error e
  | .ok pm => .ok (pm.enum.map (fun p => ⟨p.2, p.1⟩))

/-- GameState.is_valid_move: `move in self.possible_moves`, where `in` compares
with `==`, i.e. object identity for Move. -/
def GameState.is_valid_move (s : GameState) (m : MoveObj) : Except PyErr Bool :=
  match s.possible_move_objs with
  | .error e => .error e
  | .ok objs => .ok (objs.any (fun x => MoveObj.py_eq x m))

/-- GameState.perform_move. Returns the Python result (the new GameState, or the
raised exception) TOGETHER with the post-call state of the receiver `s`:
`Board.move` mutates `self.board` in place (its `new_board = self` aliases the
receiver) and `Fishes.add_fish` mutates `self.fishes` in place, so mutations
that happen before an exception persist in `s`. -/
def GameState.perform_move (s : GameState) (m : MoveObj) :
    Except PyErr GameState × GameState :=
  match s.is_valid_move m with
  | .error e => (.error e, s)
  | .ok false => (.error .invalidMove, s)
  | .ok true =>
    match s.current_team_from_turn with
    | .error e => (.error e, s)
    | .ok current_team =>
      match s.board.move m.val with
      | .error e => (.error e, s)
      | .ok new_board =>
        let s1 : GameState := { s with board := new_board }
        match m.val.to_value.to_cartesian.to_index with
        | none => (.error .typeError, s1)
        | some di =>
          match new_board.get_field di with
          | .error e => (.error e, s1)
          | .ok fld =>
            let new_fishes := s.fishes.add_fish current_team fld.fish
            let s2 : GameState := { s1 with fishes := new_fishes }
            match (GameState.mk new_board (s.turn + 1) s.start_team new_fishes
                (some m.val)).init_check with
            | .error e => (.error e, s2)
            | .ok ns => (.ok ns, s2)

/-- Follows the spec's words: the consecutive cell indices of the straight hex
ray in a given direction, starting from a given first candidate cell, cut off
where the ray leaves the board. -/
def ray_indices (direction : Vector) : Nat → Option Nat → List Nat
  | _, none => []
  | 0, some _ => []
  | fuel + 1, some j =>
    j :: ray_indices direction fuel
      (((CartesianCoordinate.from_index_valid j).to_hex.add_vector direction).to_cartesian.to_index)

/-- Follows the spec's words for get_directive_moves: starting at `index` with a
penguin of `team` there, one candidate Move per cell of the straight hex ray, in
step order, for exactly the cells up to but excluding the first cell that is
off-board (the ray ends), occupied, or has zero fish. -/
def Board.directive_moves_spec (b : Board) (index : Nat) (direction : Vector)
    (team : TeamEnum) : List Move :=
  let origin := (CartesianCoordinate.from_index_valid index).to_hex
  if b.is_team team index then
    ((ray_indices direction 64
        ((origin.add_vector direction).to_cartesian.to_index)).takeWhile
      (fun j => !b.is_occupied j && decide (0 < b.get_fish j))).map
      (fun j => Move.mk (some origin) ((CartesianCoordinate.from_index_valid j).to_hex) team)
  else []

/-! Concrete boards, states and moves used by the claim theorems below.

`exB6`: team ONE penguin at index 0, one-fish bits at indices 1 and 2 (Scenario A).
`exB4`: team ONE penguins at indices 0..3 (four penguins) and a one-fish bit at index 10.
`exB3`: team ONE penguins at indices 0..2 (three penguins) and a one-fish bit at index 10.
`exB9`: one-fish bit at index 63 (so fish_1 = 2^63 is the numerically largest mask) and a
four-fish bit at index 0.
`exS0`, `exS4`, `exS5`: game states at turn 0 with start team ONE, a zero tally and no
last move, over a board whose only content is a single one-fish bit, so that the single
legal move is the placement onto that field. -/

def exB6 : Board := ⟨1, 0, 0, 6, 0, 0, 0⟩

def exB4 : Board := ⟨15, 0, 0, 1024, 0, 0, 0⟩

def exB3 : Board := ⟨7, 0, 0, 1024, 0, 0, 0⟩

def exB9 : Board := ⟨0, 0, 0, 2 ^ 63, 0, 0, 1⟩

def exS0 : GameState := ⟨⟨0, 0, 0, 1024, 0, 0, 0⟩, 0, .ONE, ⟨0, 0⟩, none⟩

def exV0 : Move := ⟨none, ⟨5, 1⟩, .ONE⟩

def exS4 : GameState := ⟨⟨0, 0, 0, 32, 0, 0, 0⟩, 0, .ONE, ⟨0, 0⟩, none⟩

def exV4 : Move := ⟨none, ⟨10, 0⟩, .ONE⟩

def exS5 : GameState := ⟨⟨0, 0, 0, 4096, 0, 0, 0⟩, 0, .ONE, ⟨0, 0⟩, none⟩

def exV5 : Move := ⟨none, ⟨9, 1⟩, .ONE⟩

/-! Helper lemmas. -/

/-- Round-trip of a valid linear index through a cartesian coordinate. -/
theorem to_index_from_index_valid (i : Nat) (h : i ≤ 63) :
    (CartesianCoordinate.from_index_valid i).to_index = some i := by
  simp only [CartesianCoordinate.from_index_valid, CartesianCoordinate.to_index]
  rw [if_pos]
  · simp only [Option.some.injEq]
    omega
  · refine ⟨?_, ?_, ?_, ?_⟩ <;> omega

/-- Any index produced by to_index is a valid cell index. -/
theorem to_index_le (c : CartesianCoordinate) (k : Nat) (h : c.to_index = some k) :
    k ≤ 63 := by
  simp only [CartesianCoordinate.to_index] at h
  split at h
  · simp only [Option.some.injEq] at h
    omega
  · exact absurd h (by simp)

/-- from_index succeeds exactly on valid indices. -/
theorem from_index_ok (i : Nat) (h : i ≤ 63) :
    CartesianCoordinate.from_index i = .ok (CartesianCoordinate.from_index_valid i) := by
  simp [CartesianCoordinate.from_index, h]

/-- The Python while loop of get_directive_moves enumerates exactly the prefix of
the hex ray up to, and excluding, the first blocking cell. -/
theorem directive_loop_eq_takeWhile (b : Board) (o : HexCoordinate) (d : Vector)
    (t : TeamEnum) :
    ∀ (fuel : Nat) (j? : Option Nat), (∀ j, j? = some j → j ≤ 63) →
    Board.directive_loop b o d t fuel j? =
      .ok (((ray_indices d fuel j?).takeWhile
          (fun j => !b.is_occupied j && decide (0 < b.get_fish j))).map
        (fun j => Move.mk (some o) ((CartesianCoordinate.from_index_valid j).to_hex) t)) := by
  intro fuel
  induction fuel with
  | zero =>
    intro j? hj
    cases j? <;> rfl
  | succ n ih =>
    intro j? hj
    cases j? with
    | none => rfl
    | some j =>
      have hj63 : j ≤ 63 := hj j rfl
      have hvalid : Board.is_valid j = true := by
        simp only [Board.is_valid, decide_eq_true_eq]
        omega
      by_cases hp : (!b.is_occupied j && decide (0 < b.get_fish j)) = true
      · simp only [Board.directive_loop, ray_indices, hvalid, hp, Bool.true_and,
          Bool.and_self, if_pos, from_index_ok j hj63, List.takeWhile_cons, if_true,
          List.map_cons]
        rw [ih _ (fun j2 hj2 => to_index_le _ _ hj2)]
      · simp only [Board.directive_loop, ray_indices, hvalid, hp, Bool.true_and,
          List.takeWhile_cons, if_false, List.map_nil]
        simp [hp]

/-- C6: for every board, valid index and direction, get_directive_moves returns one
Move per cell of the straight hex ray from the index, in step order, for exactly the
cells up to but excluding the first off-board, occupied or zero-fish cell (and nothing
without a penguin of the team at the index); concretely, on the Scenario A board with
a team-ONE penguin at index 0 and one-fish bits at indices 1 and 2, the moves from
index 0 (over all six directions, only the (2,0) ray contributes) are exactly two,
landing at index 1 (hex (2,0)) and then index 2 (hex (4,0)). -/
theorem get_directive_moves_ray_characterization :
    (∀ (b : Board) (i : Nat) (d : Vector) (t : TeamEnum), i ≤ 63 →
      b.get_directive_moves i d t = .ok (Board.directive_moves_spec b i d t)) ∧
    Board.possible_moves_from exB6 0 .ONE
      = .ok [⟨some ⟨0, 0⟩, ⟨2, 0⟩, .ONE⟩, ⟨some ⟨0, 0⟩, ⟨4, 0⟩, .ONE⟩] := by
  refine ⟨?_, rfl⟩
  intro b i d t hi
  simp only [Board.get_directive_moves, Board.directive_moves_spec, from_index_ok i hi]
  by_cases ht : b.is_team t i = true
  · simp only [ht, if_true]
    exact directive_loop_eq_takeWhile b _ d t 64 _ (fun j hj => to_index_le _ _ hj)
  · simp only [Bool.not_eq_true] at ht
    simp [ht]

/-- Witness for C6 at the Scenario A input. -/
theorem get_directive_moves_ray_characterization_witness :
    (0 : Nat) ≤ 63 ∧
    Board.get_directive_moves exB6 0 ⟨2, 0⟩ .ONE
      = .ok (Board.directive_moves_spec exB6 0 ⟨2, 0⟩ .ONE) :=
  ⟨by decide, get_directive_moves_ray_characterization.1 exB6 0 ⟨2, 0⟩ .ONE (by decide)⟩

/-- C8: every valid linear index round-trips through a cartesian coordinate
(from_index then to_index), and every in-range cartesian coordinate round-trips
through a hex coordinate (to_hex then to_cartesian). -/
theorem coordinate_roundtrip :
    (∀ i : Nat, i ≤ 63 →
      ∃ c, CartesianCoordinate.from_index i = .ok c ∧ c.to_index = some i) ∧
    (∀ c : CartesianCoordinate, 0 ≤ c.x → c.x ≤ 7 → 0 ≤ c.y → c.y ≤ 7 →
      c.to_hex.to_cartesian = c) := by
  constructor
  · intro i hi
    exact ⟨CartesianCoordinate.from_index_valid i, from_index_ok i hi,
      to_index_from_index_valid i hi⟩
  · intro c _ _ _ _
    simp only [CartesianCoordinate.to_hex, HexCoordinate.to_cartesian]
    rcases c with ⟨x, y⟩
    simp only [CartesianCoordinate.mk.injEq, and_true]
    by_cases hy : y % 2 = 1 <;>
      simp only [hy, if_true, if_false, if_pos, if_neg] <;>
      rw [Int.fdiv_eq_ediv _ (by norm_num)] <;> omega

/-- Witness for C8 at index 37 and cartesian coordinate (3, 5). -/
theorem coordinate_roundtrip_witness :
    ((37 : Nat) ≤ 63 ∧
      ∃ c, CartesianCoordinate.from_index 37 = .ok c ∧ c.to_index = some 37) ∧
    ((0 : Int) ≤ 3 ∧ (3 : Int) ≤ 7 ∧ (0 : Int) ≤ 5 ∧ (5 : Int) ≤ 7 ∧
      (CartesianCoordinate.mk 3 5).to_hex.to_cartesian = ⟨3, 5⟩) :=
  ⟨⟨by decide, coordinate_roundtrip.1 37 (by decide)⟩,
   ⟨by decide, by decide, by decide, by decide,
    coordinate_roundtrip.2 ⟨3, 5⟩ (by decide) (by decide) (by decide) (by decide)⟩⟩

/-- The bit of a single shifted-in one. -/
theorem testBit_one_shiftLeft (i k : Nat) : (1 <<< i).testBit k = decide (k = i) := by
  rw [Nat.one_shiftLeft]
  rcases eq_or_ne k i with h | h
  · subst h
    simp [Nat.testBit_two_pow_self]
  · simp [Nat.testBit_two_pow_of_ne (Ne.symm h), h]

/-- C10: Board.update with an origin XORs the origin bit and ORs the destination bit
in the acting team's mask only, leaving the other team's mask and all five fish masks
bit-for-bit unchanged; without an origin it only ORs the destination bit in the acting
team's mask, leaving the other six masks unchanged. -/
theorem board_update_bit_effects :
    (∀ (b : Board) (o dst : HexCoordinate) (t : TeamEnum) (i j : Nat),
      o.to_cartesian.to_index = some i → dst.to_cartesian.to_index = some j →
      ∃ b', b.update ⟨some o, dst, t⟩ = .ok b' ∧
        b'.fish_0 = b.fish_0 ∧ b'.fish_1 = b.fish_1 ∧ b'.fish_2 = b.fish_2 ∧
        b'.fish_3 = b.fish_3 ∧ b'.fish_4 = b.fish_4 ∧
        (t = .ONE → b'.two = b.two ∧
          ∀ k, b'.one.testBit k
            = (((b.one.testBit k).xor (decide (k = i))) || decide (k = j))) ∧
        (t = .TWO → b'.one = b.one ∧
          ∀ k, b'.two.testBit k
            = (((b.two.testBit k).xor (decide (k = i))) || decide (k = j)))) ∧
    (∀ (b : Board) (dst : HexCoordinate) (t : TeamEnum) (j : Nat),
      dst.to_cartesian.to_index = some j →
      ∃ b', b.update ⟨none, dst, t⟩ = .ok b' ∧
        b'.fish_0 = b.fish_0 ∧ b'.fish_1 = b.fish_1 ∧ b'.fish_2 = b.fish_2 ∧
        b'.fish_3 = b.fish_3 ∧ b'.fish_4 = b.fish_4 ∧
        (t = .ONE → b'.two = b.two ∧
          ∀ k, b'.one.testBit k = (b.one.testBit k || decide (k = j))) ∧
        (t = .TWO → b'.one = b.one ∧
          ∀ k, b'.two.testBit k = (b.two.testBit k || decide (k = j)))) := by
  constructor
  · intro b o dst t i j hi hj
    cases t with
    | ONE =>
      refine ⟨{ b with one := (b.one ^^^ 1 <<< i) ||| 1 <<< j },
        by simp only [Board.update, hi, hj], rfl, rfl, rfl, rfl, rfl, ?_, ?_⟩
      · intro _
        exact ⟨rfl, fun k => by
          simp only [Nat.testBit_or, Nat.testBit_xor, testBit_one_shiftLeft]⟩
      · intro h
        cases h
    | TWO =>
      refine ⟨{ b with two := (b.two ^^^ 1 <<< i) ||| 1 <<< j },
        by simp only [Board.update, hi, hj], rfl, rfl, rfl, rfl, rfl, ?_, ?_⟩
      · intro h
        cases h
      · intro _
        exact ⟨rfl, fun k => by
          simp only [Nat.testBit_or, Nat.testBit_xor, testBit_one_shiftLeft]⟩
  · intro b dst t j hj
    cases t with
    | ONE =>
      refine ⟨{ b with one := b.one ||| 1 <<< j },
        by simp only [Board.update, hj], rfl, rfl, rfl, rfl, rfl, ?_, ?_⟩
      · intro _
        exact ⟨rfl, fun k => by simp only [Nat.testBit_or, testBit_one_shiftLeft]⟩
      · intro h
        cases h
    | TWO =>
      refine ⟨{ b with two := b.two ||| 1 <<< j },
        by simp only [Board.update, hj], rfl, rfl, rfl, rfl, rfl, ?_, ?_⟩
      · intro h
        cases h
      · intro _
        exact ⟨rfl, fun k => by simp only [Nat.testBit_or, testBit_one_shiftLeft]⟩

/-- Witness for C10: a slide of team ONE from hex (0,0) (index 0) to hex (2,0)
(index 1), and a placement of team TWO onto hex (4,0) (index 2). -/
theorem board_update_bit_effects_witness :
    ((HexCoordinate.mk 0 0).to_cartesian.to_index = some 0 ∧
      (HexCoordinate.mk 2 0).to_cartesian.to_index = some 1 ∧
      ∃ b', Board.update exB6 ⟨some ⟨0, 0⟩, ⟨2, 0⟩, .ONE⟩ = .ok b' ∧
        b'.fish_0 = exB6.fish_0 ∧ b'.fish_1 = exB6.fish_1 ∧ b'.fish_2 = exB6.fish_2 ∧
        b'.fish_3 = exB6.fish_3 ∧ b'.fish_4 = exB6.fish_4 ∧
        (TeamEnum.ONE = .ONE → b'.two = exB6.two ∧
          ∀ k, b'.one.testBit k
            = (((exB6.one.testBit k).xor (decide (k = 0))) || decide (k = 1))) ∧
        (TeamEnum.ONE = .TWO → b'.one = exB6.one ∧
          ∀ k, b'.two.testBit k
            = (((exB6.two.testBit k).xor (decide (k = 0))) || decide (k = 1)))) ∧
    ((HexCoordinate.mk 4 0).to_cartesian.to_index = some 2 ∧
      ∃ b', Board.update exB6 ⟨none, ⟨4, 0⟩, .TWO⟩ = .ok b' ∧
        b'.fish_0 = exB6.fish_0 ∧ b'.fish_1 = exB6.fish_1 ∧ b'.fish_2 = exB6.fish_2 ∧
        b'.fish_3 = exB6.fish_3 ∧ b'.fish_4 = exB6.fish_4 ∧
        (TeamEnum.TWO = .ONE → b'.two = exB6.two ∧
          ∀ k, b'.one.testBit k = (exB6.one.testBit k || decide (k = 2))) ∧
        (TeamEnum.TWO = .TWO → b'.one = exB6.one ∧
          ∀ k, b'.two.testBit k = (exB6.two.testBit k || decide (k = 2)))) :=
  ⟨⟨by decide, by decide,
    board_update_bit_effects.1 exB6 ⟨0, 0⟩ ⟨2, 0⟩ .ONE 0 1 (by decide) (by decide)⟩,
   ⟨by decide,
    board_update_bit_effects.2 exB6 ⟨4, 0⟩ .TWO 2 (by decide)⟩⟩

/-! Error classification: none of the computations reachable from an accepted move can
raise the invalid-move exception, so perform_move raises invalid-move exactly on the
rejection path. -/

theorem from_index_not_invalid (i : Nat) :
    CartesianCoordinate.from_index i ≠ .error .invalidMove := by
  unfold CartesianCoordinate.from_index
  split <;> simp

theorem get_penguin_not_invalid (b : Board) (c : HexCoordinate) :
    b.get_penguin c ≠ .error .invalidMove := by
  intro hc
  unfold Board.get_penguin at hc
  split at hc <;> simp_all

theorem get_field_not_invalid (b : Board) (i : Nat) :
    b.get_field i ≠ .error .invalidMove := by
  intro hc
  unfold Board.get_field at hc
  cases hfi : CartesianCoordinate.from_index i with
  | error e =>
    rw [hfi] at hc
    simp only [Except.error.injEq] at hc
    exact from_index_not_invalid i (by rw [hfi, hc])
  | ok c =>
    rw [hfi] at hc
    simp only at hc
    cases hgp : b.get_penguin c.to_hex with
    | error e =>
      rw [hgp] at hc
      simp only [Except.error.injEq] at hc
      exact get_penguin_not_invalid b c.to_hex (by rw [hgp, hc])
    | ok p =>
      rw [hgp] at hc
      simp only at hc
      cases hti : c.to_hex.to_cartesian.to_index with
      | none =>
        rw [hti] at hc
        simp at hc
      | some k =>
        rw [hti] at hc
        simp at hc

theorem set_field_not_invalid (b : Board) (f : Field) :
    b.set_field f ≠ .error .invalidMove := by
  intro hc
  unfold Board.set_field at hc
  cases hfp : f.penguin with
  | some penguin =>
    rw [hfp] at hc
    simp only at hc
    cases hpi : penguin.position.to_cartesian.to_index with
    | none =>
      rw [hpi] at hc
      simp at hc
    | some index =>
      rw [hpi] at hc
      simp only at hc
      cases hpt : penguin.team <;> rw [hpt] at hc <;> simp at hc
  | none =>
    rw [hfp] at hc
    simp only at hc
    cases hci : f.coordinate.to_cartesian.to_index with
    | none =>
      rw [hci] at hc
      simp at hc
    | some index =>
      rw [hci] at hc
      simp only at hc
      split_ifs at hc
      all_goals simp_all

theorem board_move_not_invalid (b : Board) (m : Move) :
    b.move m ≠ .error .invalidMove := by
  intro hc
  unfold Board.move at hc
  cases hfv : m.from_value with
  | none =>
    rw [hfv] at hc
    simp at hc
  | some origin =>
    rw [hfv] at hc
    simp only at hc
    cases hoi : origin.to_cartesian.to_index with
    | none =>
      rw [hoi] at hc
      simp at hc
    | some oi =>
      rw [hoi] at hc
      simp only at hc
      cases hdi : m.to_value.to_cartesian.to_index with
      | none =>
        rw [hdi] at hc
        simp at hc
      | some di =>
        rw [hdi] at hc
        simp only at hc
        cases hof : b.get_field oi with
        | error e =>
          rw [hof] at hc
          simp only [Except.error.injEq] at hc
          exact get_field_not_invalid b oi (by rw [hof, hc])
        | ok origin_field =>
          rw [hof] at hc
          simp only at hc
          cases hdf : b.get_field di with
          | error e =>
            rw [hdf] at hc
            simp only [Except.error.injEq] at hc
            exact get_field_not_invalid b di (by rw [hdf, hc])
          | ok destination_field =>
            rw [hdf] at hc
            simp only at hc
            cases hsf : b.set_field origin_field with
            | error e =>
              rw [hsf] at hc
              simp only [Except.error.injEq] at hc
              exact set_field_not_invalid b origin_field (by rw [hsf, hc])
            | ok b1 =>
              rw [hsf] at hc
              simp only at hc
              exact set_field_not_invalid b1 destination_field hc

theorem mapExcept_not_invalid {α β : Type} (f : α → Except PyErr β)
    (hf : ∀ a, f a ≠ .error .invalidMove) (l : List α) :
    mapExcept f l ≠ .error .invalidMove := by
  induction l with
  | nil => simp [mapExcept]
  | cons a as ih =>
    intro hc
    unfold mapExcept at hc
    cases hfa : f a with
    | error e =>
      rw [hfa] at hc
      simp only [Except.error.injEq] at hc
      exact hf a (by rw [hfa, hc])
    | ok bv =>
      rw [hfa] at hc
      simp only at hc
      cases hm : mapExcept f as with
      | error e =>
        rw [hm] at hc
        simp only [Except.error.injEq] at hc
        exact ih (by rw [hm, hc])
      | ok bs =>
        rw [hm] at hc
        simp at hc

theorem get_possible_moves_not_invalid (b : Board) (t : TeamEnum) :
    GameState.get_possible_moves b t ≠ .error .invalidMove := by
  intro hc
  unfold GameState.get_possible_moves at hc
  have hfld : ∀ p : Int × Int,
      (match (CartesianCoordinate.mk p.1 p.2).to_index with
        | none => (.error .typeError : Except PyErr Field)
        | some i => b.get_field i) ≠ .error .invalidMove := by
    intro p hcc
    cases hti : (CartesianCoordinate.mk p.1 p.2).to_index with
    | none =>
      rw [hti] at hcc
      simp at hcc
    | some i =>
      rw [hti] at hcc
      simp only at hcc
      exact get_field_not_invalid b i hcc
  cases hm : mapExcept (fun p =>
      match (CartesianCoordinate.mk p.1 p.2).to_index with
      | none => .error .typeError
      | some i => b.get_field i)
    ((List.range 8).flatMap (fun x => (List.range 8).map (fun y => ((x : Int), (y : Int))))) with
  | error e =>
    rw [hm] at hc
    simp only [Except.error.injEq] at hc
    exact mapExcept_not_invalid _ hfld _ (by rw [hm, hc])
  | ok fields =>
    rw [hm] at hc
    simp only at hc
    split_ifs at hc
    all_goals simp_all

theorem current_team_from_turn_not_invalid (s : GameState) :
    s.current_team_from_turn ≠ .error .invalidMove := by
  intro hc
  simp only [GameState.current_team_from_turn] at hc
  cases hm : GameState.get_possible_moves s.board
      (if s.turn % 2 = 0 then s.start_team else s.start_team.opponent) with
  | error e =>
    rw [hm] at hc
    simp only [Except.error.injEq] at hc
    exact get_possible_moves_not_invalid s.board _ (by rw [hm, hc])
  | ok moves =>
    rw [hm] at hc
    simp at hc

theorem init_check_not_invalid (s : GameState) :
    s.init_check ≠ .error .invalidMove := by
  intro hc
  unfold GameState.init_check at hc
  cases hct : s.current_team_from_turn with
  | error e =>
    rw [hct] at hc
    simp only [Except.error.injEq] at hc
    exact current_team_from_turn_not_invalid s (by rw [hct, hc])
  | ok ct =>
    rw [hct] at hc
    simp only at hc
    cases hm : GameState.get_possible_moves s.board ct with
    | error e =>
      rw [hm] at hc
      simp only [Except.error.injEq] at hc
      exact get_possible_moves_not_invalid s.board ct (by rw [hm, hc])
    | ok _ =>
      rw [hm] at hc
      simp at hc

/-- After the membership test accepts, no later step of perform_move can raise the
invalid-move exception. -/
theorem perform_move_accepted_not_invalid (s : GameState) (m : MoveObj)
    (h : s.is_valid_move m = .ok true) :
    (s.perform_move m).1 ≠ .error .invalidMove := by
  intro hc
  unfold GameState.perform_move at hc
  rw [h] at hc
  simp only at hc
  cases hct : s.current_team_from_turn with
  | error e =>
    rw [hct] at hc
    simp only at hc
    exact current_team_from_turn_not_invalid s (by rw [hct]; simp_all)
  | ok ct =>
    rw [hct] at hc
    simp only at hc
    cases hmv : s.board.move m.val with
    | error e =>
      rw [hmv] at hc
      simp only at hc
      exact board_move_not_invalid s.board m.val (by rw [hmv]; simp_all)
    | ok nb =>
      rw [hmv] at hc
      simp only at hc
      cases hti : m.val.to_value.to_cartesian.to_index with
      | none =>
        rw [hti] at hc
        simp at hc
      | some di =>
        rw [hti] at hc
        simp only at hc
        cases hgf : nb.get_field di with
        | error e =>
          rw [hgf] at hc
          simp only at hc
          exact get_field_not_invalid nb di (by rw [hgf]; simp_all)
        | ok fld =>
          rw [hgf] at hc
          simp only at hc
          cases hic : (GameState.mk nb (s.turn + 1) s.start_team
              (s.fishes.add_fish ct fld.fish) (some m.val)).init_check with
          | error e =>
            rw [hic] at hc
            simp only at hc
            exact init_check_not_invalid _ (by rw [hic]; simp_all)
          | ok ns =>
            rw [hic] at hc
            simp at hc

/-- C5 counterexample: a Move that is structurally equal to the sole legal move
(same absent origin, same destination, same team — it carries the very same attribute
values exV5) but is a distinct object (address 1, while the legal list holds address 0)
is REJECTED by is_valid_move and makes perform_move raise the invalid-move error,
contrary to the claim that such a move is accepted. -/
theorem is_valid_move_rejects_equal_value :
    GameState.possible_moves exS5 = .ok [exV5] ∧
    exS5.is_valid_move ⟨exV5, 1⟩ = .ok false ∧
    exS5.perform_move ⟨exV5, 1⟩ = (.error .invalidMove, exS5) :=
  ⟨rfl, rfl, rfl⟩

/-- C5 (amended): perform_move raises the invalid-move error iff no element of the
current possible-move list is the SAME OBJECT as the given move (Move has no __eq__,
so membership is tested by object identity, and a structurally equal but distinct Move
is rejected); on the invalid-move path the receiver is returned unchanged. -/
theorem perform_move_invalid_iff_not_identical (s : GameState) (m : MoveObj)
    (objs : List MoveObj) (h : s.possible_move_objs = .ok objs) :
    ((s.perform_move m).1 = .error .invalidMove
      ↔ objs.any (fun x => MoveObj.py_eq x m) = false) ∧
    (objs.any (fun x => MoveObj.py_eq x m) = false →
      s.perform_move m = (.error .invalidMove, s)) := by
  have hvm : s.is_valid_move m = .ok (objs.any (fun x => MoveObj.py_eq x m)) := by
    unfold GameState.is_valid_move
    rw [h]
  by_cases hany : objs.any (fun x => MoveObj.py_eq x m) = true
  · rw [hany] at hvm
    refine ⟨iff_of_false (perform_move_accepted_not_invalid s m hvm) (by simp [hany]), ?_⟩
    intro hf
    rw [hf] at hany
    exact absurd hany (by simp)
  · have hfalse : objs.any (fun x => MoveObj.py_eq x m) = false := by
      simpa using hany
    rw [hfalse] at hvm
    have hpm : s.perform_move m = (.error .invalidMove, s) := by
      unfold GameState.perform_move
      rw [hvm]
    refine ⟨?_, fun _ => hpm⟩
    rw [hpm, hfalse]
    simp

/-- Witness for C5 (amended) at a concrete state whose single legal move object has
address 0, probed with a structurally equal move object of address 3. -/
theorem perform_move_invalid_iff_not_identical_witness :
    GameState.possible_move_objs exS5 = .ok [⟨exV5, 0⟩] ∧
    (((exS5.perform_move ⟨exV5, 3⟩).1 = .error .invalidMove
        ↔ ([⟨exV5, 0⟩] : List MoveObj).any (fun x => MoveObj.py_eq x ⟨exV5, 3⟩) = false) ∧
      (([⟨exV5, 0⟩] : List MoveObj).any (fun x => MoveObj.py_eq x ⟨exV5, 3⟩) = false →
        exS5.perform_move ⟨exV5, 3⟩ = (.error .invalidMove, exS5))) :=
  ⟨rfl, perform_move_invalid_iff_not_identical exS5 ⟨exV5, 3⟩ [⟨exV5, 0⟩] rfl⟩

/-- C1: with three ONE penguins the legal moves are exactly the placement moves onto
penguin-free one-fish fields (here the single field at index 10, hex (5,1)); but as soon
as the active team has 4 penguins on the board, the slide branch of _get_possible_moves
calls Board.possible_moves_from(penguin) without the required team argument and raises
TypeError instead of returning the slide moves the claim describes. -/
theorem get_possible_moves_arity_crash :
    GameState.get_possible_moves exB4 .ONE = .error .typeError ∧
    (exB4.get_teams_penguins .ONE).length = 4 ∧
    GameState.get_possible_moves exB3 .ONE = .ok [⟨none, ⟨5, 1⟩, .ONE⟩] ∧
    (exB3.get_teams_penguins .ONE).length = 3 :=
  ⟨rfl, rfl, rfl, rfl⟩

/-- C2: Board.move does not move anything: applying the legal slide from hex (0,0)
(index 0) to hex (2,0) (index 1) on the Scenario A board returns the board bit-for-bit
unchanged — its set_field calls only re-set bits that are already set — although
Board.update on the same move produces the mask the claim describes (origin bit
toggled off, destination bit set: one = 2); and a placement move (absent origin)
raises AttributeError inside Board.move instead of setting the destination bit. -/
theorem board_move_does_not_apply :
    Board.move exB6 ⟨some ⟨0, 0⟩, ⟨2, 0⟩, .ONE⟩ = .ok exB6 ∧
    Board.update exB6 ⟨some ⟨0, 0⟩, ⟨2, 0⟩, .ONE⟩ = .ok ⟨2, 0, 0, 6, 0, 0, 0⟩ ∧
    Board.move exB6 ⟨none, ⟨2, 0⟩, .ONE⟩ = .error .attributeError :=
  ⟨rfl, rfl, rfl⟩

/-- C3: perform_move on a move that IS in possible_moves (the legal placement onto the
single one-fish field, taken from the list itself as object 0) does not return a new
GameState at all: Board.move dereferences the absent origin of the placement move and
the call raises AttributeError. -/
theorem perform_move_crashes_on_legal_move :
    GameState.possible_moves exS0 = .ok [exV0] ∧
    exS0.perform_move ⟨exV0, 0⟩ = (.error .attributeError, exS0) :=
  ⟨rfl, rfl⟩

/-- C4: a perform_move call on a legal move never completes a transition — it raises
AttributeError inside Board.move before any mask or tally is touched — so the receiver
is left unchanged only because every such call fails; no new Board is ever allocated
(Board.move returns its aliased receiver) and no successor GameState is produced. -/
theorem perform_move_never_completes :
    GameState.possible_moves exS4 = .ok [exV4] ∧
    (exS4.perform_move ⟨exV4, 0⟩).2 = exS4 ∧
    (exS4.perform_move ⟨exV4, 0⟩).1 = .error .attributeError :=
  ⟨rfl, rfl, rfl⟩

/-- C7: current_team_from_turn returns the nominal team when its computed move list is
non-empty and the opponent when that list is empty, but when the nominal team has 4
penguins on the board the computation of that list raises TypeError (see C1) and the
function returns no team at all. -/
theorem current_team_from_turn_crash :
    GameState.current_team_from_turn ⟨exB4, 0, .ONE, ⟨0, 0⟩, none⟩ = .error .typeError ∧
    GameState.current_team_from_turn ⟨⟨0, 0, 0, 0, 0, 0, 0⟩, 0, .ONE, ⟨0, 0⟩, none⟩
      = .ok .TWO ∧
    GameState.current_team_from_turn exS0 = .ok .ONE :=
  ⟨rfl, rfl, rfl⟩

/-- C9: get_most_fish compares whole mask integers, not per-cell fish counts: on a
board whose maximum per-cell fish count is 4 (at index 0) but whose fish_1 mask 2^63
is the numerically largest mask, it returns only the one-fish field at index 63
(hex (15,7)) and omits the four-fish field. -/
theorem get_most_fish_mask_max_bug :
    Board.get_most_fish exB9 = .ok [⟨⟨15, 7⟩, none, 1⟩] ∧
    exB9.get_fish 0 = 4 ∧
    exB9.get_fish 63 = 1 :=
  ⟨rfl, rfl, rfl⟩

end Penguins
